import Mathlib

/-!
Shallow embedding of the UIDAI enrolment analytics pipeline
(`data_pipeline.py`): cleaning, aggregation, indicator engine
(seasonality index, district saturation/momentum/volatility flags,
child momentum), and the insight/recommendation synthesizer.

Modelling conventions:
* a calendar month is a `Nat` (absolute month index); month-of-year is
  `date % 12 + 1`;
* quantities are exact rationals `ℚ`; pandas `NaN` ("missing") is
  `Option.none`;
* `pd.to_datetime(..., errors='coerce')` and `pd.to_numeric(...,
  errors='coerce')` are modelled by their outcome: an `Option`-valued
  field (`none` = unparsable/missing);
* pandas float division producing `NaN`/`±inf` at a zero denominator is
  modelled as `none`, with the sign of the numerator consulted exactly
  where a downstream `<` comparison would see `-inf`;
* pandas' sample standard deviation `std` (ddof = 1) is irrational, so
  the rolling `std12` column is carried as its square (the sample
  variance `var12`); the one comparison the code makes on `std12`
  (`std12 > 1.5 * median(std12)`) is decided by the exact square-free
  criterion `sqrtGtCond` on variances.
-/

namespace UIDAI

/-- Python `str.lower()` (ASCII case folding suffices for the data used). -/
def pyLower (s : String) : String := ⟨s.data.map Char.toLower⟩

/-- Python `str.strip()`: remove leading and trailing whitespace. -/
def pyStrip (s : String) : String :=
  ⟨(((s.data.dropWhile Char.isWhitespace).reverse).dropWhile Char.isWhitespace).reverse⟩

/-- A raw CSV row after type coercion: `date` is the outcome of
`pd.to_datetime(..., errors='coerce')` (`none` = unparsable or missing),
the age fields are the outcome of `pd.to_numeric(..., errors='coerce')`,
and `district`/`pincode` are `none` when the cell is missing (`NaN`). -/
structure RawRow where
  state : String
  date : Option Nat
  district : Option String
  pincode : Option String
  age_0_5 : Option ℚ
  age_5_17 : Option ℚ
  age_18_greater : Option ℚ
  deriving DecidableEq, Repr

/-- A cleaned row (post `dropna(subset=['date','district','pincode'])`):
all key fields present, `total_enrolments` the NaN-skipping row sum of
the three age fields (`df[[...]].sum(axis=1)`). -/
structure Row where
  date : Nat
  district : String
  pincode : String
  age_0_5 : Option ℚ
  age_5_17 : Option ℚ
  age_18_greater : Option ℚ
  total_enrolments : ℚ
  deriving DecidableEq, Repr

/-- One row of `load_and_prepare`: state filter
(`df['state'].str.strip().str.lower() == state_filter.lower()` — note the
filter value is only lowercased, not stripped), the row total, and the
drop of rows missing date/district/pincode; district and pincode are
stringified and stripped. -/
def cleanRow (state_filter : String) (r : RawRow) : Option Row :=
  if pyLower (pyStrip r.state) = pyLower state_filter then
    match r.date, r.district, r.pincode with
    | some d, some dist, some pin =>
      some { date := d, district := pyStrip dist, pincode := pyStrip pin,
             age_0_5 := r.age_0_5, age_5_17 := r.age_5_17,
             age_18_greater := r.age_18_greater,
             total_enrolments :=
               r.age_0_5.getD 0 + r.age_5_17.getD 0 + r.age_18_greater.getD 0 }
    | _, _, _ => none
  else none

/-- The cleaned row set of `load_and_prepare`. -/
def cleanRows (state_filter : String) (raw : List RawRow) : List Row :=
  raw.filterMap (cleanRow state_filter)

/-- Month-of-year (1–12) of an absolute month index (`monthly.index.month`). -/
def monthOfYear (d : Nat) : Nat := d % 12 + 1

/-- One entry of the state-level monthly aggregate (`df.groupby('date')`
with per-age and total sums, plus the `month` column). -/
structure MonthEntry where
  date : Nat
  age_0_5 : ℚ
  age_5_17 : ℚ
  age_18_greater : ℚ
  total : ℚ
  month : Nat
  deriving DecidableEq, Repr

/-- The rows of a given date. -/
def rowsAt (rows : List Row) (d : Nat) : List Row :=
  rows.filter (fun r => r.date = d)

/-- The distinct dates of the cleaned rows, ascending (groupby keys,
`sort_index`). -/
def datesOf (rows : List Row) : List Nat :=
  ((rows.map Row.date).toFinset).sort (· ≤ ·)

/-- The aggregated state-level entry of one date: each age column summed
NaN-skipping (missing contributes 0), `total` the sum of row totals. -/
def monthEntryAt (rows : List Row) (d : Nat) : MonthEntry :=
  { date := d
    age_0_5 := ((rowsAt rows d).map (fun r => r.age_0_5.getD 0)).sum
    age_5_17 := ((rowsAt rows d).map (fun r => r.age_5_17.getD 0)).sum
    age_18_greater := ((rowsAt rows d).map (fun r => r.age_18_greater.getD 0)).sum
    total := ((rowsAt rows d).map Row.total_enrolments).sum
    month := monthOfYear d }

/-- `monthly`: state-level monthly aggregate, ascending by date. -/
def monthlyOf (rows : List Row) : List MonthEntry :=
  (datesOf rows).map (monthEntryAt rows)

/-- One row of the `district_monthly` aggregate. -/
structure DMRow where
  district : String
  date : Nat
  total : ℚ
  deriving DecidableEq, Repr

/-- One row of the `pincode_monthly` aggregate. -/
structure PMRow where
  pincode : String
  date : Nat
  total : ℚ
  deriving DecidableEq, Repr

/-- The distinct districts of the cleaned rows, in groupby (ascending) order. -/
def districtsOf (rows : List Row) : List String :=
  ((rows.map Row.district).toFinset).sort (· ≤ ·)

/-- The distinct dates of one district's rows, ascending. -/
def districtDatesOf (rows : List Row) (dist : String) : List Nat :=
  (((rows.filter (fun r => r.district = dist)).map Row.date).toFinset).sort (· ≤ ·)

/-- The summed total of the `(district, date)` group. -/
def districtTotalAt (rows : List Row) (dist : String) (d : Nat) : ℚ :=
  ((rows.filter (fun r => r.district = dist && r.date = d)).map
    Row.total_enrolments).sum

/-- `district_monthly`: `df.groupby(['district','date']).agg(total=sum)`,
keys in ascending lexicographic order. -/
def districtMonthlyOf (rows : List Row) : List DMRow :=
  List.flatten ((districtsOf rows).map (fun dist =>
    (districtDatesOf rows dist).map (fun d =>
      { district := dist, date := d, total := districtTotalAt rows dist d })))

/-- The distinct pincodes of the cleaned rows, in groupby order. -/
def pincodesOf (rows : List Row) : List String :=
  ((rows.map Row.pincode).toFinset).sort (· ≤ ·)

/-- The distinct dates of one pincode's rows, ascending. -/
def pincodeDatesOf (rows : List Row) (pin : String) : List Nat :=
  (((rows.filter (fun r => r.pincode = pin)).map Row.date).toFinset).sort (· ≤ ·)

/-- The summed total of the `(pincode, date)` group. -/
def pincodeTotalAt (rows : List Row) (pin : String) (d : Nat) : ℚ :=
  ((rows.filter (fun r => r.pincode = pin && r.date = d)).map
    Row.total_enrolments).sum

/-- `pincode_monthly`: `df.groupby(['pincode','date']).agg(total=sum)`. -/
def pincodeMonthlyOf (rows : List Row) : List PMRow :=
  List.flatten ((pincodesOf rows).map (fun pin =>
    (pincodeDatesOf rows pin).map (fun d =>
      { pincode := pin, date := d, total := pincodeTotalAt rows pin d })))

/-- The dict returned by `load_and_prepare`. -/
structure PreparedData where
  df : List Row
  monthly : List MonthEntry
  district_monthly : List DMRow
  pincode_monthly : List PMRow
  deriving DecidableEq, Repr

/-- `load_and_prepare` (the cleaned row set and the three aggregates). -/
def load_and_prepare (state_filter : String) (raw : List RawRow) : PreparedData :=
  let rows := cleanRows state_filter raw
  { df := rows
    monthly := monthlyOf rows
    district_monthly := districtMonthlyOf rows
    pincode_monthly := pincodeMonthlyOf rows }

/-- Arithmetic mean of a list of rationals (the pandas `mean`; callers
guard emptiness as the source does). -/
def meanQ (l : List ℚ) : ℚ := l.sum / l.length

/-- The distinct month-of-year values of a monthly series, ascending
(groupby('month') keys). -/
def monthsOf (m : List MonthEntry) : List Nat :=
  ((m.map MonthEntry.month).toFinset).sort (· ≤ ·)

/-- The `total` values of the entries with a given month-of-year. -/
def monthTotals (m : List MonthEntry) (mo : Nat) : List ℚ :=
  (m.filter (fun e => e.month = mo)).map MonthEntry.total

/-- `overall_avg = monthly['total'].mean() if len(monthly) else 0`. -/
def overall_avg (m : List MonthEntry) : ℚ :=
  if m.length = 0 then 0 else meanQ (m.map MonthEntry.total)

/-- `_seasonality_index`: per observed month-of-year, the mean of `total`
divided by the overall mean when the latter is nonzero (Python truthiness
of `overall_avg`), else the raw per-month mean. -/
def seasonality_index (m : List MonthEntry) : List (Nat × ℚ) :=
  (monthsOf m).map (fun mo =>
    (mo, if overall_avg m = 0 then meanQ (monthTotals m mo)
         else meanQ (monthTotals m mo) / overall_avg m))

/-- One state-month of `_child_momentum`: `child_total = age_0_5 +
age_5_17` and `child_share = child_total / total` with `±inf`/`NaN`
(zero total) replaced by missing. -/
def childEntry (e : MonthEntry) : ℚ × Option ℚ :=
  (e.age_0_5 + e.age_5_17,
   if e.total = 0 then none else some ((e.age_0_5 + e.age_5_17) / e.total))

/-- `_child_momentum`. -/
def child_momentum (m : List MonthEntry) : List (ℚ × Option ℚ) :=
  m.map childEntry

/-- `Series.rolling(win, min_periods=minp).apply(f)`: at position `i` the
window is the trailing `min (i+1) win` values ending at `i`; the result is
defined only when the window holds at least `minp` values. -/
def rollingApply (win minp : Nat) (f : List ℚ → ℚ) (l : List ℚ) : List (Option ℚ) :=
  (List.range l.length).map (fun i =>
    let w := (l.take (i + 1)).drop (i + 1 - win)
    if minp ≤ w.length then some (f w) else none)

/-- Maximum of a (nonempty, as used) list of rationals. -/
def maxQ (l : List ℚ) : ℚ := l.foldr max (l.headD 0)

/-- Sample variance (pandas `std` with `ddof = 1`, squared). -/
def varQ (l : List ℚ) : ℚ :=
  ((l.map (fun x => (x - meanQ l) ^ 2)).sum) / ((l.length - 1 : ℕ) : ℚ)

/-- The value at the last position of a rolling column
(`groupby(...).tail(1)`); `none` on an empty column. -/
def lastO (l : List (Option ℚ)) : Option ℚ := l.getLastD none

/-- One line of the `_district_saturation_flags` snapshot. -/
structure FlagRec where
  district : String
  saturation_index : Option ℚ
  low_momentum : Bool
  volatile : Bool
  saturation_risk : Bool
  deriving DecidableEq, Repr

/-- The distinct districts of a `district_monthly` table, ascending. -/
def dmDistricts (dm : List DMRow) : List String :=
  ((dm.map DMRow.district).toFinset).sort (· ≤ ·)

/-- One district's monthly `total` series sorted ascending by date
(`sort_values(['district','date'])`, stable on ties). -/
def dmSeries (dm : List DMRow) (dist : String) : List ℚ :=
  (List.insertionSort (fun a b => a.date ≤ b.date)
    (dm.filter (fun r => r.district = dist))).map DMRow.total

/-- All defined `std12` values across every district and month, carried
as sample variances (`dm['std12']` with the `NaN`s dropped, as pandas
`median` skips them). -/
def std12values (dm : List DMRow) : List ℚ :=
  List.flatten ((dmDistricts dm).map (fun dist =>
    (rollingApply 12 6 varQ (dmSeries dm dist)).filterMap id))

/-- The two middle elements of the ascending sort (equal for an odd
count): pandas `median` is the average of the square roots of the pair.
`none` when the list is empty (`median` of no defined values is `NaN`). -/
def medianPairQ (l : List ℚ) : Option (ℚ × ℚ) :=
  let s := List.insertionSort (· ≤ ·) l
  if s.length = 0 then none
  else if s.length % 2 = 1 then
    some (s.getD (s.length / 2) 0, s.getD (s.length / 2) 0)
  else
    some (s.getD (s.length / 2 - 1) 0, s.getD (s.length / 2) 0)

/-- Decides `√v > (3/4) * (√a + √b)` for nonnegative rationals, i.e.
`std12 > 1.5 * median(std12)` where `v` is the last variance and `(a, b)`
the two middle variances of the population (their square roots average to
the median standard deviation). Squaring twice eliminates the roots. -/
def sqrtGtCond (v a b : ℚ) : Bool :=
  decide (0 < 16 * v - 9 * (a + b)) &&
    decide (324 * (a * b) < (16 * v - 9 * (a + b)) ^ 2)

/-- Soundness of the square-free criterion: for nonnegative inputs,
`sqrtGtCond v a b` holds exactly when `√v > (3/4) · (√a + √b)`, i.e.
when the last standard deviation exceeds 1.5 times the median standard
deviation `(√a + √b) / 2`. -/
theorem sqrtGtCond_eq_true_iff (v a b : ℚ) (hv : 0 ≤ v) (ha : 0 ≤ a) (hb : 0 ≤ b) :
    sqrtGtCond v a b = true ↔
      (3 / 4 : ℝ) * (Real.sqrt (a : ℝ) + Real.sqrt (b : ℝ)) < Real.sqrt (v : ℝ) := by
  unfold sqrtGtCond
  rw [Bool.and_eq_true, decide_eq_true_eq, decide_eq_true_eq]
  have hva : (0:ℝ) ≤ (v:ℝ) := by exact_mod_cast hv
  have haa : (0:ℝ) ≤ (a:ℝ) := by exact_mod_cast ha
  have hba : (0:ℝ) ≤ (b:ℝ) := by exact_mod_cast hb
  have hA := Real.sqrt_nonneg (a:ℝ)
  have hB := Real.sqrt_nonneg (b:ℝ)
  have hV := Real.sqrt_nonneg (v:ℝ)
  have hA2 : Real.sqrt (a:ℝ) ^ 2 = (a:ℝ) := Real.sq_sqrt haa
  have hB2 : Real.sqrt (b:ℝ) ^ 2 = (b:ℝ) := Real.sq_sqrt hba
  have hV2 : Real.sqrt (v:ℝ) ^ 2 = (v:ℝ) := Real.sq_sqrt hva
  constructor
  · rintro ⟨h1, h2⟩
    have h1r : (0:ℝ) < 16*(v:ℝ) - 9*((a:ℝ)+(b:ℝ)) := by exact_mod_cast h1
    have h2r : 324*((a:ℝ)*(b:ℝ)) < (16*(v:ℝ) - 9*((a:ℝ)+(b:ℝ)))^2 := by
      exact_mod_cast h2
    by_contra hcon
    push_neg at hcon
    have hsq : Real.sqrt (v:ℝ) * Real.sqrt (v:ℝ) ≤
        (3 / 4 * (Real.sqrt (a:ℝ) + Real.sqrt (b:ℝ))) *
          (3 / 4 * (Real.sqrt (a:ℝ) + Real.sqrt (b:ℝ))) :=
      mul_le_mul hcon hcon hV (by positivity)
    have hstep : (v:ℝ) ≤ (9/16)*((a:ℝ)+(b:ℝ)) +
        (9/8)*(Real.sqrt (a:ℝ) * Real.sqrt (b:ℝ)) := by
      nlinarith [hsq]
    have hM : 16*(v:ℝ) - 9*((a:ℝ)+(b:ℝ)) ≤
        18*(Real.sqrt (a:ℝ) * Real.sqrt (b:ℝ)) := by linarith
    have hMsq : (16*(v:ℝ) - 9*((a:ℝ)+(b:ℝ)))^2 ≤
        (18*(Real.sqrt (a:ℝ) * Real.sqrt (b:ℝ)))^2 :=
      pow_le_pow_left₀ (le_of_lt h1r) hM 2
    have hab : (18*(Real.sqrt (a:ℝ) * Real.sqrt (b:ℝ)))^2 = 324*((a:ℝ)*(b:ℝ)) := by
      have hr : (18*(Real.sqrt (a:ℝ) * Real.sqrt (b:ℝ)))^2 =
          324 * (Real.sqrt (a:ℝ) ^ 2 * Real.sqrt (b:ℝ) ^ 2) := by ring
      rw [hr, hA2, hB2]
    rw [hab] at hMsq
    linarith
  · intro h
    have key : 9 * ((a:ℝ) + (b:ℝ)) + 18 * (Real.sqrt (a:ℝ) * Real.sqrt (b:ℝ)) <
        16 * (v:ℝ) := by
      have hlt : (3 / 4 * (Real.sqrt (a:ℝ) + Real.sqrt (b:ℝ))) *
          (3 / 4 * (Real.sqrt (a:ℝ) + Real.sqrt (b:ℝ))) <
            Real.sqrt (v:ℝ) * Real.sqrt (v:ℝ) := by
        apply mul_self_lt_mul_self (by positivity) h
      nlinarith [hlt]
    constructor
    · have hq : (0:ℝ) < 16*(v:ℝ) - 9*((a:ℝ)+(b:ℝ)) := by
        nlinarith [mul_nonneg hA hB]
      exact_mod_cast hq
    · have hM : 18*(Real.sqrt (a:ℝ) * Real.sqrt (b:ℝ)) <
          16*(v:ℝ) - 9*((a:ℝ)+(b:ℝ)) := by linarith
      have hMn : (0:ℝ) ≤ 18*(Real.sqrt (a:ℝ) * Real.sqrt (b:ℝ)) := by positivity
      have hMsq : (18*(Real.sqrt (a:ℝ) * Real.sqrt (b:ℝ)))^2 <
          (16*(v:ℝ) - 9*((a:ℝ)+(b:ℝ)))^2 := by
        apply pow_lt_pow_left₀ hM hMn
        norm_num
      have hab : (18*(Real.sqrt (a:ℝ) * Real.sqrt (b:ℝ)))^2 = 324*((a:ℝ)*(b:ℝ)) := by
        have hr : (18*(Real.sqrt (a:ℝ) * Real.sqrt (b:ℝ)))^2 =
            324 * (Real.sqrt (a:ℝ) ^ 2 * Real.sqrt (b:ℝ) ^ 2) := by ring
        rw [hr, hA2, hB2]
      rw [hab] at hMsq
      exact_mod_cast hMsq

/-- The snapshot line of one district: rolling statistics over its full
date-sorted history, evaluated at the latest point, with every comparison
on an undefined (`NaN`) operand resolving to `false`
(`.fillna(False)` / float `NaN` comparison semantics). A zero
`rolling12_max` makes `saturation_index` undefined (`NaN`/`±inf`), and
`saturation_risk` sees `-inf < 0.6` exactly when `rolling3_avg < 0`. -/
def flagFor (dm : List DMRow) (med : Option (ℚ × ℚ)) (dist : String) : FlagRec :=
  let s := dmSeries dm dist
  let rolling12_max := lastO (rollingApply 12 3 maxQ s)
  let rolling3_avg := lastO (rollingApply 3 3 meanQ s)
  let rolling12_avg := lastO (rollingApply 12 6 meanQ s)
  let var12 := lastO (rollingApply 12 6 varQ s)
  { district := dist
    saturation_index :=
      match rolling3_avg, rolling12_max with
      | some x, some mx => if mx = 0 then none else some (x / mx)
      | _, _ => none
    low_momentum :=
      match rolling3_avg, rolling12_avg with
      | some x, some y => decide (x < y / 2)
      | _, _ => false
    volatile :=
      match var12, med with
      | some v, some (a, b) => sqrtGtCond v a b
      | _, _ => false
    saturation_risk :=
      match rolling3_avg, rolling12_max with
      | some x, some mx => if mx = 0 then decide (x < 0) else decide (x / mx < 3 / 5)
      | _, _ => false }

/-- Ascending-by-`saturation_index` comparison with undefined values
last (`sort_values('saturation_index')`, `na_position='last'`). -/
def satIdxLEb (x y : FlagRec) : Bool :=
  match x.saturation_index, y.saturation_index with
  | some a, some b => decide (a ≤ b)
  | some _, none => true
  | none, some _ => false
  | none, none => true

/-- `_district_saturation_flags`: one snapshot line per district, sorted
ascending by saturation index. -/
def district_saturation_flags (dm : List DMRow) : List FlagRec :=
  let med := medianPairQ (std12values dm)
  List.insertionSort (fun x y => satIdxLEb x y = true)
    ((dmDistricts dm).map (flagFor dm med))

/-- Python `int(...)` on a rational value: truncation toward zero. -/
def pyInt (q : ℚ) : Int := Int.tdiv q.num (q.den : Int)

/-- `", ".join(...)`. -/
def joinCS : List String → String
  | [] => ""
  | [x] => x
  | x :: xs => x ++ ", " ++ joinCS xs

/-- `" & ".join(...)`. -/
def joinAmp : List String → String
  | [] => ""
  | [x] => x
  | x :: xs => x ++ " & " ++ joinAmp xs

/-- `Series.pct_change()`: first entry missing, then `cur / prev - 1`,
undefined (`NaN`/`±inf`) on a zero previous value. -/
def pctChange (l : List ℚ) : List (Option ℚ) :=
  match l with
  | [] => []
  | _ :: xs =>
    none :: List.zipWith (fun prev cur => if prev = 0 then none
      else some (cur / prev - 1)) l xs

/-- `Series.tail(n)`: the last `n` entries. -/
def tailN (n : Nat) (l : List α) : List α := l.drop (l.length - n)

/-- pandas `mean` over a column with missing values: skip them, `NaN`
when none are defined. -/
def meanSkipNone (l : List (Option ℚ)) : Option ℚ :=
  let v := l.filterMap id
  if v.length = 0 then none else some (meanQ v)

/-- pandas `median` of a nonempty list: middle of the ascending sort, or
the average of the two middles for an even count. -/
def medianQ (l : List ℚ) : ℚ :=
  let s := List.insertionSort (· ≤ ·) l
  if s.length % 2 = 1 then s.getD (s.length / 2) 0
  else (s.getD (s.length / 2 - 1) 0 + s.getD (s.length / 2) 0) / 2

/-- `groupby('district')['total'].sum()`: ascending district keys. -/
def distTotalsOf (dm : List DMRow) : List (String × ℚ) :=
  (dmDistricts dm).map (fun dist =>
    (dist, ((dm.filter (fun r => r.district = dist)).map DMRow.total).sum))

/-- `sort_values(ascending=False)` on the value of a keyed series
(stable; pandas leaves tie order unspecified). -/
def sortDescByVal (l : List (α × ℚ)) : List (α × ℚ) :=
  List.insertionSort (fun a b => b.2 ≤ a.2) l

/-- `calendar.month_name[m]`. -/
def monthName (m : Nat) : String :=
  match m with
  | 1 => "January" | 2 => "February" | 3 => "March" | 4 => "April"
  | 5 => "May" | 6 => "June" | 7 => "July" | 8 => "August"
  | 9 => "September" | 10 => "October" | 11 => "November" | 12 => "December"
  | _ => ""

/-- The `findings` value of an insight: either a fully rendered string,
or (for the findings whose rendering percent-formats floating-point
values — a presentation step) the raw values that would be formatted. -/
inductive Findings where
  | text (s : String)
  | totalTrend (total_change : ℚ) (recent_growth : Option ℚ)
  | ageShares (share_0_5 share_5_17 share_18 : ℚ)
  | childShare (last_share : Option ℚ)
  deriving DecidableEq, Repr

/-- One insight record (`what` / `findings` / `why`). -/
structure Insight where
  what : String
  findings : Findings
  why : String
  deriving DecidableEq, Repr

/-- The dict returned by `generate_insights`, one field per topic key. -/
structure Insights where
  total_trend : Insight
  age_stacked : Insight
  district_disparity : Insight
  pincode_box : Insight
  seasonality_index : Insight
  risk_summary : Insight
  child_momentum : Insight
  deriving DecidableEq, Repr

/-- A placeholder month entry for guarded first/last accesses. -/
def dummyMonth : MonthEntry := ⟨0, 0, 0, 0, 0, 0⟩

/-- `generate_insights`. -/
def generate_insights (data : PreparedData) : Insights :=
  let monthly := data.monthly
  let insTotalTrend : Insight :=
    if monthly.length ≠ 0 then
      let first := (monthly.headD dummyMonth).total
      let lastT := (monthly.getLastD dummyMonth).total
      let total_change := (lastT - first) / max first 1
      let recent_growth := meanSkipNone (tailN 3 (pctChange (monthly.map MonthEntry.total)))
      { what := "Monthly state-level Aadhaar enrolments over time"
        findings := .totalTrend total_change recent_growth
        why := "Tracks momentum and helps plan outreach or capacity scaling." }
    else
      { what := "Monthly state-level Aadhaar enrolments over time"
        findings := .text "Insufficient data to compute trends."
        why := "Trend monitoring guides operational planning." }
  let ts := if monthly.length ≠ 0 then (monthly.map MonthEntry.total).sum else 0
  let insAgeStacked : Insight :=
    if ts ≠ 0 then
      { what := "Stacked area of age-group enrolments"
        findings := .ageShares ((monthly.map MonthEntry.age_0_5).sum / ts)
          ((monthly.map MonthEntry.age_5_17).sum / ts)
          ((monthly.map MonthEntry.age_18_greater).sum / ts)
        why := "Helps target initiatives for children, students, and adults." }
    else
      { what := "Stacked area of age-group enrolments"
        findings := .text "No totals available to compute shares."
        why := "Age mix guides segment-specific policy actions." }
  let dist_totals := sortDescByVal (distTotalsOf data.district_monthly)
  let fmtPair : String × ℚ → String := fun p =>
    p.1 ++ " (" ++ toString (pyInt p.2) ++ ")"
  let insDisparity : Insight :=
    { what := "Top and bottom district enrolments (12 months)"
      findings := .text ("Top: " ++ joinCS ((dist_totals.take 3).map fmtPair)
        ++ "; Bottom: " ++ joinCS ((tailN 3 dist_totals).map fmtPair) ++ ".")
      why := "Highlights areas for targeted support and resource allocation." }
  let insPincode : Insight :=
    if data.pincode_monthly.length ≠ 0 then
      let pmDates := ((data.pincode_monthly.map PMRow.date).toFinset).sort (· ≤ ·)
      let dispersion := meanQ (pmDates.map (fun d =>
        medianQ ((data.pincode_monthly.filter (fun r => r.date = d)).map PMRow.total)))
      { what := "Monthly distribution of pincode-level enrolments"
        findings := .text ("Central tendency (median across months): ~"
          ++ toString (pyInt dispersion) ++ " enrolments per pincode.")
        why := "Assesses local capacity needs and variability." }
    else
      { what := "Monthly distribution of pincode-level enrolments"
        findings := .text "No pincode-level observations available."
        why := "Local variability informs micro-targeting." }
  let seasonal := seasonality_index monthly
  let insSeasonal : Insight :=
    if seasonal.length ≠ 0 then
      let top_months := ((sortDescByVal seasonal).take 2).map Prod.fst
      { what := "Month-of-year seasonal index of enrolments"
        findings := .text ("Peak months: " ++ joinCS (top_months.map toString)
          ++ "; plan staffing and campaigns accordingly.")
        why := "Seasonal planning improves throughput and user experience." }
    else
      { what := "Month-of-year seasonal index of enrolments"
        findings := .text "Insufficient months to estimate seasonality."
        why := "Seasonality informs timing for campaigns." }
  let flags := district_saturation_flags data.district_monthly
  let insRisk : Insight :=
    { what := "Count of districts flagged for saturation, low momentum, and volatility"
      findings := .text ("Saturation risk: "
        ++ toString (flags.countP (fun f => f.saturation_risk))
        ++ "; Low momentum: " ++ toString (flags.countP (fun f => f.low_momentum))
        ++ "; Volatile: " ++ toString (flags.countP (fun f => f.volatile)) ++ ".")
      why := "Directs attention to underperforming or unstable areas." }
  let child := child_momentum monthly
  let insChild : Insight :=
    if child.length ≠ 0 then
      { what := "Share of child enrolments in total over time"
        findings := .childShare (child.getLastD (0, none)).2
        why := "Guides child-focused outreach and school partnerships." }
    else
      { what := "Share of child enrolments in total over time"
        findings := .text "Insufficient data for child share."
        why := "Child enrolment is a UIDAI priority segment." }
  { total_trend := insTotalTrend
    age_stacked := insAgeStacked
    district_disparity := insDisparity
    pincode_box := insPincode
    seasonality_index := insSeasonal
    risk_summary := insRisk
    child_momentum := insChild }

/-- One recommendation: a rendered string, or — for the one
recommendation whose rendering percent-formats a float — the raw value. -/
inductive RecItem where
  | text (s : String)
  | childPriority (last_share : Option ℚ)
  deriving DecidableEq, Repr

/-- `generate_recommendations`: the fixed-length, fixed-order list. -/
def generate_recommendations (data : PreparedData) : List RecItem :=
  let monthly := data.monthly
  let flags := district_saturation_flags data.district_monthly
  let child := child_momentum monthly
  let rec1 : RecItem :=
    if child.length ≠ 0 then .childPriority (child.getLastD (0, none)).2
    else .text "Prioritize child enrolment infrastructure; monitor child share trends."
  let recent :=
    if monthly.length = 0 then data.district_monthly
    else
      let cutoff := (monthly.map MonthEntry.date).foldr max 0 - 11
      data.district_monthly.filter (fun r => cutoff ≤ r.date)
  let bottom3 := (tailN 3 (sortDescByVal (distTotalsOf recent))).map Prod.fst
  let rec2 : RecItem :=
    if bottom3.length ≠ 0 then
      .text ("Deploy mobile enrolment units in low-performing districts ("
        ++ joinCS bottom3 ++ ").")
    else .text "Deploy mobile units to low-performing areas identified by recent trends."
  let seasonal := seasonality_index monthly
  let rec3 : RecItem :=
    if seasonal.length ≠ 0 then
      let top_months := ((sortDescByVal seasonal).take 2).map Prod.fst
      .text ("Align outreach campaigns with seasonal peaks ("
        ++ joinAmp (top_months.map monthName) ++ ").")
    else .text "Align campaigns with observed seasonal peaks once sufficient data accrues."
  let volatile_names := ((flags.filter (fun f => f.volatile)).map FlagRec.district).take 3
  let rec4 : RecItem :=
    if volatile_names.length ≠ 0 then
      .text ("Monitor volatile districts for operational instability (e.g., "
        ++ joinCS volatile_names ++ ").")
    else .text "Monitor districts exhibiting high variability for operational stability."
  let rec5 : RecItem :=
    .text ("Shift focus from enrolment to service quality in saturated districts (approx. "
      ++ toString (flags.countP (fun f => f.saturation_risk)) ++ " flagged).")
  [rec1, rec2, rec3, rec4, rec5]

/-! ### Helper lemmas -/

theorem rollingApply_nil (win minp : Nat) (f : List ℚ → ℚ) :
    rollingApply win minp f [] = [] := by
  simp [rollingApply]

theorem lastO_rollingApply_of_ne_nil (win minp : Nat) (f : List ℚ → ℚ)
    {l : List ℚ} (h : l ≠ []) :
    lastO (rollingApply win minp f l) =
      if minp ≤ min l.length win then some (f (l.drop (l.length - win)))
      else none := by
  obtain ⟨m, hm⟩ : ∃ m, l.length = m + 1 :=
    ⟨l.length - 1, by have := List.length_pos.mpr h; omega⟩
  unfold rollingApply lastO
  rw [hm, List.range_succ, List.map_append, List.map_singleton,
    List.getLastD_concat]
  have htake : l.take (m + 1) = l := by
    rw [← hm, List.take_length]
  rw [htake]
  have hlen : (l.drop (m + 1 - win)).length = min (m + 1) win := by
    rw [List.length_drop, hm]; omega
  simp only []
  rw [hlen]

theorem lastO_rollingApply_none (win minp : Nat) (f : List ℚ → ℚ)
    {l : List ℚ} (h : l.length < minp) :
    lastO (rollingApply win minp f l) = none := by
  rcases eq_or_ne l [] with rfl | hne
  · simp [rollingApply, lastO]
  · rw [lastO_rollingApply_of_ne_nil win minp f hne, if_neg]
    omega

theorem lastO_rollingApply_isSome (win minp : Nat) (f : List ℚ → ℚ)
    {l : List ℚ} (hpos : 0 < minp) (hwin : minp ≤ win) (hlen : minp ≤ l.length) :
    (lastO (rollingApply win minp f l)).isSome := by
  have hne : l ≠ [] := by
    intro hnil
    rw [hnil] at hlen
    simp at hlen
    omega
  rw [lastO_rollingApply_of_ne_nil win minp f hne, if_pos (by omega)]
  rfl

theorem mem_district_saturation_flags {dm : List DMRow} {rec : FlagRec} :
    rec ∈ district_saturation_flags dm ↔
      rec ∈ (dmDistricts dm).map (flagFor dm (medianPairQ (std12values dm))) := by
  simp only [district_saturation_flags, List.mem_insertionSort]

theorem flagFor_district (dm : List DMRow) (med : Option (ℚ × ℚ)) (dist : String) :
    (flagFor dm med dist).district = dist := rfl

/-- Replacing a Finset of ℕ/String keys by an explicitly sorted,
duplicate-free list with the same members. -/
theorem sort_finset_eq {α : Type} [LinearOrder α] (s : Finset α) (L : List α)
    (h₁ : List.Sorted (· ≤ ·) L) (h₂ : L.Nodup) (h₃ : L.toFinset = s) :
    s.sort (· ≤ ·) = L := by
  apply List.eq_of_perm_of_sorted _ (Finset.sort_sorted _ _) h₁
  apply List.perm_of_nodup_nodup_toFinset_eq (Finset.sort_nodup _ _) h₂
  rw [Finset.sort_toFinset, h₃]

/-! ### Claim C7: districts with fewer than 6 monthly points are never volatile -/

/-- C7: for every `district_monthly` input, a district whose monthly
series has fewer than 6 points has an undefined `std12` at its latest
point, and the undefined comparison against 1.5 times the state median
`std12` resolves to `false`: the snapshot never flags it `volatile`. -/
theorem short_series_never_volatile (dm : List DMRow) (rec : FlagRec)
    (hrec : rec ∈ district_saturation_flags dm)
    (hlen : (dmSeries dm rec.district).length < 6) :
    lastO (rollingApply 12 6 varQ (dmSeries dm rec.district)) = none ∧
      rec.volatile = false := by
  rw [mem_district_saturation_flags] at hrec
  obtain ⟨dist, hd, rfl⟩ := List.mem_map.mp hrec
  rw [flagFor_district] at hlen
  refine ⟨by rw [flagFor_district]; exact lastO_rollingApply_none 12 6 varQ hlen, ?_⟩
  show (flagFor dm (medianPairQ (std12values dm)) dist).volatile = false
  simp only [flagFor]
  rw [lastO_rollingApply_none 12 6 varQ hlen]

/-- A one-point district for the C7 witness. -/
def dmW7 : List DMRow := [⟨"X", 0, 5⟩]

/-- The snapshot line of the C7 witness district. -/
def recW7 : FlagRec :=
  { district := "X", saturation_index := none, low_momentum := false,
    volatile := false, saturation_risk := false }

/-- C7 witness: the one-point district `"X"` is in the snapshot, has a
series shorter than 6, and is not volatile. -/
theorem short_series_never_volatile_witness :
    recW7 ∈ district_saturation_flags dmW7 ∧
      (dmSeries dmW7 recW7.district).length < 6 ∧ recW7.volatile = false := by
  have hD : dmDistricts dmW7 = ["X"] := by
    have : ((dmW7.map DMRow.district).toFinset : Finset String) = {"X"} := by
      simp [dmW7]
    rw [dmDistricts, this, Finset.sort_singleton]
  have hS : dmSeries dmW7 "X" = [5] := by
    simp [dmSeries, dmW7, List.insertionSort, List.orderedInsert]
  have hmem : recW7 ∈ district_saturation_flags dmW7 := by
    simp [district_saturation_flags, hD, std12values, hS, flagFor, rollingApply,
      List.range_succ, meanQ, maxQ, varQ, lastO, medianPairQ,
      List.insertionSort, List.orderedInsert, recW7]
  have hlen : (dmSeries dmW7 recW7.district).length < 6 := by
    show (dmSeries dmW7 "X").length < 6
    rw [hS]; norm_num
  exact ⟨hmem, hlen,
    (short_series_never_volatile dmW7 recW7 hmem hlen).2⟩

/-! ### Claim C10: districts with 3–5 monthly points never get low_momentum -/

/-- C10: a district whose monthly series has between 3 and 5 points has
a defined `rolling3_avg` but an undefined `rolling12_avg`
(`min_periods=6`), so the comparison resolves to `false` and the
snapshot never flags it `low_momentum`. -/
theorem few_points_never_low_momentum (dm : List DMRow) (rec : FlagRec)
    (hrec : rec ∈ district_saturation_flags dm)
    (h3 : 3 ≤ (dmSeries dm rec.district).length)
    (h5 : (dmSeries dm rec.district).length ≤ 5) :
    rec.low_momentum = false ∧
      (lastO (rollingApply 3 3 meanQ (dmSeries dm rec.district))).isSome := by
  rw [mem_district_saturation_flags] at hrec
  obtain ⟨dist, hd, rfl⟩ := List.mem_map.mp hrec
  rw [flagFor_district] at h3 h5
  constructor
  · show (flagFor dm (medianPairQ (std12values dm)) dist).low_momentum = false
    simp only [flagFor]
    rw [lastO_rollingApply_none 12 6 meanQ (by omega)]
    rcases lastO (rollingApply 3 3 meanQ (dmSeries dm dist)) with _ | x <;> rfl
  · rw [flagFor_district]
    exact lastO_rollingApply_isSome 3 3 meanQ (by norm_num) (by norm_num) h3

/-- A four-point district for the C10 witness. -/
def dmW10 : List DMRow := [⟨"Y", 0, 10⟩, ⟨"Y", 1, 10⟩, ⟨"Y", 2, 10⟩, ⟨"Y", 3, 10⟩]

/-- The snapshot line of the C10 witness district. -/
def recW10 : FlagRec :=
  { district := "Y", saturation_index := some 1, low_momentum := false,
    volatile := false, saturation_risk := false }

/-- C10 witness: the four-point district `"Y"` is in the snapshot, has a
series of between 3 and 5 points, a defined `rolling3_avg`, and is not
flagged `low_momentum`. -/
theorem few_points_never_low_momentum_witness :
    recW10 ∈ district_saturation_flags dmW10 ∧
      3 ≤ (dmSeries dmW10 recW10.district).length ∧
      (dmSeries dmW10 recW10.district).length ≤ 5 ∧
      recW10.low_momentum = false ∧
      (lastO (rollingApply 3 3 meanQ (dmSeries dmW10 recW10.district))).isSome := by
  have hD : dmDistricts dmW10 = ["Y"] := by
    have : ((dmW10.map DMRow.district).toFinset : Finset String) = {"Y"} := by
      simp [dmW10]
    rw [dmDistricts, this, Finset.sort_singleton]
  have hS : dmSeries dmW10 "Y" = [10, 10, 10, 10] := by
    simp [dmSeries, dmW10, List.insertionSort, List.orderedInsert]
  have hmem : recW10 ∈ district_saturation_flags dmW10 := by
    simp [district_saturation_flags, hD, std12values, hS, flagFor, rollingApply,
      List.range_succ, meanQ, maxQ, varQ, lastO, medianPairQ,
      List.insertionSort, List.orderedInsert, recW10]
    norm_num
  have h3 : 3 ≤ (dmSeries dmW10 recW10.district).length := by
    show 3 ≤ (dmSeries dmW10 "Y").length
    rw [hS]; norm_num
  have h5 : (dmSeries dmW10 recW10.district).length ≤ 5 := by
    show (dmSeries dmW10 "Y").length ≤ 5
    rw [hS]; norm_num
  have h := few_points_never_low_momentum dmW10 recW10 hmem h3 h5
  exact ⟨hmem, h3, h5, h.1, h.2⟩

/-! ### Claim C2: a single district with exactly 3 flat monthly points -/

/-- The C2 scenario: one district, exactly 3 monthly points of totals
`[100, 100, 100]` and no other history. -/
def dm100 : List DMRow := [⟨"D", 0, 100⟩, ⟨"D", 1, 100⟩, ⟨"D", 2, 100⟩]

/-- C2 (counterexample to the claim as stated): on the 3-point district
the latest `rolling12_max` is defined and equals 100 — `min_periods=3`
is satisfied by 3 points — and the snapshot has `saturation_index`
defined and equal to 1, not undefined. -/
theorem three_flat_points_rolling12_max_defined :
    lastO (rollingApply 12 3 maxQ (dmSeries dm100 "D")) = some 100 ∧
      lastO (rollingApply 12 3 maxQ (dmSeries dm100 "D")) ≠ none ∧
      (district_saturation_flags dm100).map (fun r => r.saturation_index) =
        [some 1] := by
  have hD : dmDistricts dm100 = ["D"] := by
    have : ((dm100.map DMRow.district).toFinset : Finset String) = {"D"} := by
      simp [dm100]
    rw [dmDistricts, this, Finset.sort_singleton]
  have hS : dmSeries dm100 "D" = [100, 100, 100] := by
    simp [dmSeries, dm100, List.insertionSort, List.orderedInsert]
  refine ⟨?_, ?_, ?_⟩
  · rw [hS]
    simp [rollingApply, List.range_succ, maxQ, lastO]
  · rw [hS]
    simp [rollingApply, List.range_succ, maxQ, lastO]
  · simp [district_saturation_flags, hD, std12values, hS, flagFor, rollingApply,
      List.range_succ, meanQ, maxQ, varQ, lastO, medianPairQ,
      List.insertionSort, List.orderedInsert]
    norm_num

/-- Cleaned rows realising the C2 scenario. -/
def rowsC2 : List Row :=
  [⟨0, "D", "P", some 100, none, none, 100⟩,
   ⟨1, "D", "P", some 100, none, none, 100⟩,
   ⟨2, "D", "P", some 100, none, none, 100⟩]

/-- C2 (amended): on an input whose cleaned rows give a single district
with exactly 3 monthly points of totals `[100, 100, 100]`,
`rolling12_max` at the latest point is defined (3 points satisfy
`min_periods=3`) and equals 100, `saturation_index` is defined and
equals `1.0`, and `saturation_risk` is `false` because `1.0 ≥ 0.6` —
not because the index is undefined. -/
theorem three_flat_points_snapshot :
    districtMonthlyOf rowsC2 = dm100 ∧
    district_saturation_flags dm100 =
      [{ district := "D", saturation_index := some 1, low_momentum := false,
         volatile := false, saturation_risk := false }] := by
  refine ⟨?_, ?_⟩
  · have hD : districtsOf rowsC2 = ["D"] := by
      have : ((rowsC2.map Row.district).toFinset : Finset String) = {"D"} := by
        simp [rowsC2]
      rw [districtsOf, this, Finset.sort_singleton]
    have hDd : districtDatesOf rowsC2 "D" = [0, 1, 2] := by
      unfold districtDatesOf
      exact sort_finset_eq _ [0, 1, 2] (by decide) (by decide) (by decide)
    rw [districtMonthlyOf, hD]
    simp only [List.map_cons, List.map_nil, List.flatten_cons, List.flatten_nil,
      List.append_nil, hDd]
    simp [districtTotalAt, rowsC2, dm100]
  have hD : dmDistricts dm100 = ["D"] := by
    have : ((dm100.map DMRow.district).toFinset : Finset String) = {"D"} := by
      simp [dm100]
    rw [dmDistricts, this, Finset.sort_singleton]
  have hS : dmSeries dm100 "D" = [100, 100, 100] := by
    simp [dmSeries, dm100, List.insertionSort, List.orderedInsert]
  simp [district_saturation_flags, hD, std12values, hS, flagFor, rollingApply,
    List.range_succ, meanQ, maxQ, varQ, lastO, medianPairQ,
    List.insertionSort, List.orderedInsert]
  norm_num

/-! ### Claim C9: the geographic filter -/

/-- A raw row whose state matches the default filter exactly. -/
def rawMH : List RawRow :=
  [⟨"Maharashtra", some 0, some "D", some "P", none, none, none⟩]

/-- C9 (counterexample to the claim as stated): the code lowercases but
does not strip the filter value (`state_filter.lower()`), so the filter
values `"Maharashtra"` and `" Maharashtra"` — which differ only by
leading whitespace — select different row sets: one row versus none. -/
theorem filter_whitespace_sensitive :
    pyStrip " Maharashtra" = "Maharashtra" ∧
      (cleanRows "Maharashtra" rawMH).length = 1 ∧
      (cleanRows " Maharashtra" rawMH).length = 0 := by
  refine ⟨by decide, ?_, ?_⟩
  · have h : pyLower (pyStrip "Maharashtra") = pyLower "Maharashtra" := by decide
    simp [cleanRows, rawMH, cleanRow, h]
  · have h : pyLower (pyStrip "Maharashtra") ≠ pyLower " Maharashtra" := by decide
    simp [cleanRows, rawMH, cleanRow, h]

/-- C9 (amended): the geographic filter lowercases both sides but strips
only the row's state field, so two filter values with the same
lowercasing — in particular values differing only in letter case —
select exactly the same rows on every dataset; filter values differing
in leading/trailing whitespace need not. -/
theorem filter_case_insensitive (f₁ f₂ : String) (h : pyLower f₁ = pyLower f₂)
    (raw : List RawRow) : cleanRows f₁ raw = cleanRows f₂ raw := by
  have hc : cleanRow f₁ = cleanRow f₂ := by
    funext r
    unfold cleanRow
    rw [h]
  unfold cleanRows
  rw [hc]

/-- C9 witness: filters differing only in case select the same rows. -/
theorem filter_case_insensitive_witness :
    pyLower "MAHARASHTRA" = pyLower "maharashtra" ∧
      cleanRows "MAHARASHTRA" rawMH = cleanRows "maharashtra" rawMH :=
  ⟨by decide, filter_case_insensitive "MAHARASHTRA" "maharashtra" (by decide) rawMH⟩

/-! ### Claim C1: aggregates are invariant under row permutation -/

theorem datesOf_perm {rows₁ rows₂ : List Row} (h : rows₁.Perm rows₂) :
    datesOf rows₁ = datesOf rows₂ := by
  unfold datesOf
  rw [List.toFinset_eq_of_perm _ _ (h.map Row.date)]

theorem monthEntryAt_perm {rows₁ rows₂ : List Row} (h : rows₁.Perm rows₂)
    (d : Nat) : monthEntryAt rows₁ d = monthEntryAt rows₂ d := by
  have hf : (rowsAt rows₁ d).Perm (rowsAt rows₂ d) := h.filter _
  unfold monthEntryAt
  simp only [MonthEntry.mk.injEq, true_and, and_true]
  exact ⟨(hf.map _).sum_eq, (hf.map _).sum_eq, (hf.map _).sum_eq,
    (hf.map _).sum_eq⟩

/-- C1: for every cleaned row set, permuting the rows leaves all three
aggregates of `load_and_prepare` — the state monthly series and the
district and pincode monthly tables — unchanged: grouping and summation
are order-independent. -/
theorem aggregates_perm_invariant (rows₁ rows₂ : List Row) (h : rows₁.Perm rows₂) :
    monthlyOf rows₁ = monthlyOf rows₂ ∧
      districtMonthlyOf rows₁ = districtMonthlyOf rows₂ ∧
      pincodeMonthlyOf rows₁ = pincodeMonthlyOf rows₂ := by
  refine ⟨?_, ?_, ?_⟩
  · unfold monthlyOf
    rw [datesOf_perm h]
    exact List.map_congr_left (fun d _ => monthEntryAt_perm h d)
  · have hD : districtsOf rows₁ = districtsOf rows₂ := by
      unfold districtsOf
      rw [List.toFinset_eq_of_perm _ _ (h.map Row.district)]
    unfold districtMonthlyOf
    rw [hD]
    congr 1
    apply List.map_congr_left
    intro dist _
    have hd : districtDatesOf rows₁ dist = districtDatesOf rows₂ dist := by
      unfold districtDatesOf
      rw [List.toFinset_eq_of_perm _ _ ((h.filter _).map Row.date)]
    rw [hd]
    apply List.map_congr_left
    intro d _
    simp only [DMRow.mk.injEq, true_and]
    exact ((h.filter _).map _).sum_eq
  · have hP : pincodesOf rows₁ = pincodesOf rows₂ := by
      unfold pincodesOf
      rw [List.toFinset_eq_of_perm _ _ (h.map Row.pincode)]
    unfold pincodeMonthlyOf
    rw [hP]
    congr 1
    apply List.map_congr_left
    intro pin _
    have hd : pincodeDatesOf rows₁ pin = pincodeDatesOf rows₂ pin := by
      unfold pincodeDatesOf
      rw [List.toFinset_eq_of_perm _ _ ((h.filter _).map Row.date)]
    rw [hd]
    apply List.map_congr_left
    intro d _
    simp only [PMRow.mk.injEq, true_and]
    exact ((h.filter _).map _).sum_eq

/-- Two cleaned rows for the C1 witness. -/
def rowA : Row := ⟨0, "D", "P", some 1, none, none, 1⟩

/-- Second cleaned row for the C1 witness. -/
def rowB : Row := ⟨1, "D", "P", none, some 2, none, 2⟩

/-- C1 witness: swapping two concrete rows leaves all aggregates equal. -/
theorem aggregates_perm_invariant_witness :
    ([rowA, rowB] : List Row).Perm [rowB, rowA] ∧
      monthlyOf [rowA, rowB] = monthlyOf [rowB, rowA] ∧
      districtMonthlyOf [rowA, rowB] = districtMonthlyOf [rowB, rowA] ∧
      pincodeMonthlyOf [rowA, rowB] = pincodeMonthlyOf [rowB, rowA] := by
  have hp : ([rowA, rowB] : List Row).Perm [rowB, rowA] := List.Perm.swap rowB rowA []
  have h := aggregates_perm_invariant [rowA, rowB] [rowB, rowA] hp
  exact ⟨hp, h.1, h.2.1, h.2.2⟩

/-! ### Claim C5: key-field drop and age-field tolerance -/

theorem cleanRow_some_fields {f : String} {r : RawRow} {cr : Row}
    (h : cleanRow f r = some cr) :
    cr.age_0_5 = r.age_0_5 ∧ cr.age_5_17 = r.age_5_17 ∧
      cr.age_18_greater = r.age_18_greater ∧
      (∀ d, r.date = some d → cr.date = d) ∧
      cr.total_enrolments =
        r.age_0_5.getD 0 + r.age_5_17.getD 0 + r.age_18_greater.getD 0 := by
  obtain ⟨st, da, di, pi, a, b, c⟩ := r
  simp only [cleanRow] at h
  split at h
  · rcases da with _ | d <;> rcases di with _ | dv <;> rcases pi with _ | pv <;>
      simp_all
    subst h
    simp
  · simp_all

/-- C5: in `load_and_prepare`, a row missing any of date, district, or
pincode (a date that failed to parse included) is dropped entirely; a
row passing the state filter with all three key fields present is
retained even when every age field is missing, its total is the sum of
the available age components (0 when none are available), and a
retained row contributes exactly its total to the state, district, and
pincode aggregates of its keys. -/
theorem row_drop_and_retention (f : String) (r : RawRow) :
    ((r.date = none ∨ r.district = none ∨ r.pincode = none) →
      cleanRow f r = none) ∧
    (pyLower (pyStrip r.state) = pyLower f →
      ∀ d dist pin, r.date = some d → r.district = some dist →
        r.pincode = some pin →
        cleanRow f r = some
          { date := d, district := pyStrip dist, pincode := pyStrip pin,
            age_0_5 := r.age_0_5, age_5_17 := r.age_5_17,
            age_18_greater := r.age_18_greater,
            total_enrolments :=
              r.age_0_5.getD 0 + r.age_5_17.getD 0 + r.age_18_greater.getD 0 }) ∧
    (∀ cr, cleanRow f r = some cr →
      cr.total_enrolments =
        r.age_0_5.getD 0 + r.age_5_17.getD 0 + r.age_18_greater.getD 0) ∧
    (∀ cr, cleanRow f r = some cr → r.age_0_5 = none → r.age_5_17 = none →
      r.age_18_greater = none → cr.total_enrolments = 0) ∧
    (∀ (cr : Row) (rows : List Row) (d : Nat),
      (monthEntryAt (cr :: rows) d).total =
        (if cr.date = d then cr.total_enrolments else 0) +
          (monthEntryAt rows d).total) ∧
    (∀ (cr : Row) (rows : List Row) (dist : String) (d : Nat),
      districtTotalAt (cr :: rows) dist d =
        (if cr.district = dist ∧ cr.date = d then cr.total_enrolments else 0) +
          districtTotalAt rows dist d) ∧
    (∀ (cr : Row) (rows : List Row) (pin : String) (d : Nat),
      pincodeTotalAt (cr :: rows) pin d =
        (if cr.pincode = pin ∧ cr.date = d then cr.total_enrolments else 0) +
          pincodeTotalAt rows pin d) := by
  refine ⟨?_, ?_, ?_, ?_, ?_, ?_, ?_⟩
  · intro h
    obtain ⟨st, da, di, pi, a, b, c⟩ := r
    simp only [cleanRow]
    rcases da with _ | d <;> rcases di with _ | dv <;> rcases pi with _ | pv <;>
      simp_all
  · intro hmatch d dist pin hd hdist hpin
    unfold cleanRow
    rw [hd, hdist, hpin, if_pos hmatch]
  · intro cr hcr
    exact (cleanRow_some_fields hcr).2.2.2.2
  · intro cr hcr ha hb hc
    rw [(cleanRow_some_fields hcr).2.2.2.2, ha, hb, hc]
    norm_num
  · intro cr rows d
    simp only [monthEntryAt, rowsAt, List.filter_cons]
    split
    · simp_all
    · simp_all
  · intro cr rows dist d
    simp only [districtTotalAt, List.filter_cons]
    by_cases hc : cr.district = dist ∧ cr.date = d
    · rw [if_pos (by simp [hc.1, hc.2]), if_pos hc]
      simp
    · rw [if_neg (by simpa using hc), if_neg hc]
      simp
  · intro cr rows pin d
    simp only [pincodeTotalAt, List.filter_cons]
    by_cases hc : cr.pincode = pin ∧ cr.date = d
    · rw [if_pos (by simp [hc.1, hc.2]), if_pos hc]
      simp
    · rw [if_neg (by simpa using hc), if_neg hc]
      simp

/-- The C5 witness raw rows: one missing its date, one with every age
field missing but all key fields present. -/
def rawNoDate : RawRow := ⟨"S", none, some "D", some "P", some 1, some 2, some 3⟩

/-- Second C5 witness raw row: all key fields present, no age data. -/
def rawNoAges : RawRow := ⟨"S", some 2, some "D", some "P", none, none, none⟩

/-- C5 witness: the row without a date is dropped; the row with all key
fields but no age data is retained with total 0. -/
theorem row_drop_and_retention_witness :
    rawNoDate.date = none ∧ cleanRow "s" rawNoDate = none ∧
      pyLower (pyStrip rawNoAges.state) = pyLower "s" ∧
      (cleanRow "s" rawNoAges).isSome ∧
      (cleanRow "s" rawNoAges).map Row.total_enrolments = some 0 := by
  have h1 : cleanRow "s" rawNoDate = none :=
    (row_drop_and_retention "s" rawNoDate).1 (Or.inl rfl)
  have hmatch : pyLower (pyStrip rawNoAges.state) = pyLower "s" := by decide
  have h2 := (row_drop_and_retention "s" rawNoAges).2.1 hmatch 2 "D" "P" rfl rfl rfl
  refine ⟨rfl, h1, hmatch, by rw [h2]; rfl, ?_⟩
  obtain ⟨cr, hcr⟩ : ∃ cr, cleanRow "s" rawNoAges = some cr := ⟨_, h2⟩
  have h4 := (row_drop_and_retention "s" rawNoAges).2.2.2.1 cr hcr rfl rfl rfl
  rw [hcr]
  simp [h4]

/-! ### Claim C8: empty or filter-exhausted dataset degrades gracefully -/

/-- The empty prepared dataset. -/
def emptyPD : PreparedData := ⟨[], [], [], []⟩

/-- The five insufficient-data fallback texts of `generate_insights`. -/
def insufficiencyTexts : List String :=
  ["Insufficient data to compute trends.",
   "No totals available to compute shares.",
   "No pincode-level observations available.",
   "Insufficient months to estimate seasonality.",
   "Insufficient data for child share."]

/-- C8 (counterexample to the claim as stated): on the empty dataset the
`district_disparity` insight does not degrade to an insufficient-data
text — it has no such fallback branch and renders its normal format over
the empty district list, `"Top: ; Bottom: ."`, which is none of the
source's insufficient-data texts. -/
theorem empty_insight_not_insufficient :
    (generate_insights emptyPD).district_disparity.findings =
      .text "Top: ; Bottom: ." ∧
      "Top: ; Bottom: ." ∉ insufficiencyTexts := by
  constructor
  · have h1 : dmDistricts ([] : List DMRow) = [] := by
      simp [dmDistricts, Finset.sort_empty]
    simp [generate_insights, emptyPD, distTotalsOf, h1, sortDescByVal,
      List.insertionSort, joinCS, tailN]
  · decide

/-- C8 (amended): on an empty (or filter-exhausted, hence empty) cleaned
dataset, `load_and_prepare`, `_district_saturation_flags`,
`generate_insights` and `generate_recommendations` all complete and
degrade to fixed values: the flag table is empty, every flag count is
zero, the five insights that have insufficient-data fallbacks emit them,
`district_disparity` and `risk_summary` emit their ordinary format over
empty data (`"Top: ; Bottom: ."` and zero counts), and the
recommendation list keeps its fixed length 5 and order, with each entry
its fallback text. -/
theorem empty_dataset_degrades :
    load_and_prepare "Maharashtra" [] = emptyPD ∧
    district_saturation_flags [] = [] ∧
    (district_saturation_flags []).countP (fun r => r.saturation_risk) = 0 ∧
    (district_saturation_flags []).countP (fun r => r.low_momentum) = 0 ∧
    (district_saturation_flags []).countP (fun r => r.volatile) = 0 ∧
    generate_insights emptyPD =
      { total_trend := { what := "Monthly state-level Aadhaar enrolments over time",
                         findings := .text "Insufficient data to compute trends.",
                         why := "Trend monitoring guides operational planning." },
        age_stacked := { what := "Stacked area of age-group enrolments",
                         findings := .text "No totals available to compute shares.",
                         why := "Age mix guides segment-specific policy actions." },
        district_disparity := { what := "Top and bottom district enrolments (12 months)",
                                findings := .text "Top: ; Bottom: .",
                                why := "Highlights areas for targeted support and resource allocation." },
        pincode_box := { what := "Monthly distribution of pincode-level enrolments",
                         findings := .text "No pincode-level observations available.",
                         why := "Local variability informs micro-targeting." },
        seasonality_index := { what := "Month-of-year seasonal index of enrolments",
                               findings := .text "Insufficient months to estimate seasonality.",
                               why := "Seasonality informs timing for campaigns." },
        risk_summary := { what := "Count of districts flagged for saturation, low momentum, and volatility",
                          findings := .text "Saturation risk: 0; Low momentum: 0; Volatile: 0.",
                          why := "Directs attention to underperforming or unstable areas." },
        child_momentum := { what := "Share of child enrolments in total over time",
                            findings := .text "Insufficient data for child share.",
                            why := "Child enrolment is a UIDAI priority segment." } } ∧
    generate_recommendations emptyPD =
      [.text "Prioritize child enrolment infrastructure; monitor child share trends.",
       .text "Deploy mobile units to low-performing areas identified by recent trends.",
       .text "Align campaigns with observed seasonal peaks once sufficient data accrues.",
       .text "Monitor districts exhibiting high variability for operational stability.",
       .text "Shift focus from enrolment to service quality in saturated districts (approx. 0 flagged)."] := by
  have h1 : dmDistricts ([] : List DMRow) = [] := by
    simp [dmDistricts, Finset.sort_empty]
  have h2 : monthsOf ([] : List MonthEntry) = [] := by
    simp [monthsOf, Finset.sort_empty]
  have hflags : district_saturation_flags [] = [] := by
    simp [district_saturation_flags, h1, List.insertionSort]
  have hz : toString (0 : Nat) = "0" := by decide
  refine ⟨?_, hflags, ?_, ?_, ?_, ?_, ?_⟩
  · simp [load_and_prepare, cleanRows, monthlyOf, datesOf, districtMonthlyOf,
      districtsOf, pincodeMonthlyOf, pincodesOf, emptyPD, Finset.sort_empty]
  · rw [hflags]; rfl
  · rw [hflags]; rfl
  · rw [hflags]; rfl
  · simp [generate_insights, emptyPD, distTotalsOf, h1, h2, sortDescByVal,
      List.insertionSort, joinCS, tailN, seasonality_index, child_momentum,
      district_saturation_flags, hz]
  · simp [generate_recommendations, emptyPD, distTotalsOf, h1, h2, sortDescByVal,
      List.insertionSort, joinCS, tailN, seasonality_index, child_momentum,
      district_saturation_flags, hz]

/-! ### Claim C4: the seasonality index degenerate-case policy -/

/-- C4: `_seasonality_index` never divides by zero: when the monthly
series is empty or the overall mean of its totals is zero it returns for
each observed month-of-year the raw per-month mean (for an empty series,
an empty table), and otherwise the per-month mean divided by the overall
mean. -/
theorem seasonality_degenerate_policy (m : List MonthEntry) :
    ((m = [] ∨ meanQ (m.map MonthEntry.total) = 0) →
      seasonality_index m =
        (monthsOf m).map (fun mo => (mo, meanQ (monthTotals m mo)))) ∧
    (m = [] → seasonality_index m = []) ∧
    (overall_avg m ≠ 0 →
      seasonality_index m =
        (monthsOf m).map (fun mo =>
          (mo, meanQ (monthTotals m mo) / overall_avg m))) := by
  refine ⟨?_, ?_, ?_⟩
  · intro h
    have h0 : overall_avg m = 0 := by
      rcases h with rfl | h
      · simp [overall_avg]
      · simp [overall_avg, h]
    simp [seasonality_index, h0]
  · rintro rfl
    simp [seasonality_index, monthsOf, Finset.sort_empty]
  · intro h
    simp [seasonality_index, h]

/-- A one-entry monthly series with zero total. -/
def monthlyZero : List MonthEntry := [⟨0, 0, 0, 0, 0, 1⟩]

/-- A one-entry monthly series with nonzero total. -/
def monthlyFive : List MonthEntry := [⟨0, 0, 0, 0, 5, 1⟩]

/-- C4 witness: a zero-mean series takes the raw-mean branch and a
nonzero-mean series takes the ratio branch. -/
theorem seasonality_degenerate_policy_witness :
    meanQ (monthlyZero.map MonthEntry.total) = 0 ∧
      seasonality_index monthlyZero =
        (monthsOf monthlyZero).map (fun mo => (mo, meanQ (monthTotals monthlyZero mo))) ∧
      overall_avg monthlyFive ≠ 0 ∧
      seasonality_index monthlyFive =
        (monthsOf monthlyFive).map (fun mo =>
          (mo, meanQ (monthTotals monthlyFive mo) / overall_avg monthlyFive)) := by
  have hz : meanQ (monthlyZero.map MonthEntry.total) = 0 := by
    simp [meanQ, monthlyZero]
  have hf : overall_avg monthlyFive ≠ 0 := by
    simp [overall_avg, meanQ, monthlyFive]
  exact ⟨hz, (seasonality_degenerate_policy monthlyZero).1 (Or.inr hz), hf,
    (seasonality_degenerate_policy monthlyFive).2.2 hf⟩

/-! ### Claim C6: child share is in the unit interval or undefined -/

theorem sum_map_add3 (l : List Row)
    (h : ∀ r ∈ l, r.total_enrolments =
      r.age_0_5.getD 0 + r.age_5_17.getD 0 + r.age_18_greater.getD 0) :
    (l.map Row.total_enrolments).sum =
      (l.map (fun r => r.age_0_5.getD 0)).sum +
        (l.map (fun r => r.age_5_17.getD 0)).sum +
        (l.map (fun r => r.age_18_greater.getD 0)).sum := by
  induction l with
  | nil => simp
  | cons r t ih =>
    have hr := h r (List.mem_cons_self r t)
    have ht := ih (fun x hx => h x (List.mem_cons_of_mem r hx))
    simp only [List.map_cons, List.sum_cons, hr, ht]
    ring

theorem cleanRows_total_eq (f : String) (raw : List RawRow) :
    ∀ cr ∈ cleanRows f raw,
      cr.total_enrolments =
        cr.age_0_5.getD 0 + cr.age_5_17.getD 0 + cr.age_18_greater.getD 0 := by
  intro cr hcr
  obtain ⟨r, hr, hsome⟩ := List.mem_filterMap.mp hcr
  obtain ⟨h05, h517, h18, _, htot⟩ := cleanRow_some_fields hsome
  rw [htot, h05, h517, h18]

theorem cleanRows_ages_nonneg (f : String) (raw : List RawRow)
    (hnn : ∀ r ∈ raw, 0 ≤ r.age_0_5.getD 0 ∧ 0 ≤ r.age_5_17.getD 0 ∧
      0 ≤ r.age_18_greater.getD 0) :
    ∀ cr ∈ cleanRows f raw,
      0 ≤ cr.age_0_5.getD 0 ∧ 0 ≤ cr.age_5_17.getD 0 ∧
        0 ≤ cr.age_18_greater.getD 0 := by
  intro cr hcr
  obtain ⟨r, hr, hsome⟩ := List.mem_filterMap.mp hcr
  obtain ⟨h05, h517, h18, _, _⟩ := cleanRow_some_fields hsome
  rw [h05, h517, h18]
  exact hnn r hr

theorem monthEntry_total_split (rows : List Row) (d : Nat)
    (h : ∀ r ∈ rows, r.total_enrolments =
      r.age_0_5.getD 0 + r.age_5_17.getD 0 + r.age_18_greater.getD 0) :
    (monthEntryAt rows d).total =
      (monthEntryAt rows d).age_0_5 + (monthEntryAt rows d).age_5_17 +
        (monthEntryAt rows d).age_18_greater := by
  simp only [monthEntryAt]
  exact sum_map_add3 _ (fun r hr => h r (List.mem_of_mem_filter hr))

theorem monthEntry_age_nonneg (rows : List Row) (d : Nat)
    (h : ∀ r ∈ rows, 0 ≤ r.age_0_5.getD 0 ∧ 0 ≤ r.age_5_17.getD 0 ∧
      0 ≤ r.age_18_greater.getD 0) :
    0 ≤ (monthEntryAt rows d).age_0_5 ∧ 0 ≤ (monthEntryAt rows d).age_5_17 ∧
      0 ≤ (monthEntryAt rows d).age_18_greater := by
  refine ⟨?_, ?_, ?_⟩
  · simp only [monthEntryAt]
    apply List.sum_nonneg
    intro x hx
    obtain ⟨r, hr, rfl⟩ := List.mem_map.mp hx
    exact (h r (List.mem_of_mem_filter hr)).1
  · simp only [monthEntryAt]
    apply List.sum_nonneg
    intro x hx
    obtain ⟨r, hr, rfl⟩ := List.mem_map.mp hx
    exact (h r (List.mem_of_mem_filter hr)).2.1
  · simp only [monthEntryAt]
    apply List.sum_nonneg
    intro x hx
    obtain ⟨r, hr, rfl⟩ := List.mem_map.mp hx
    exact (h r (List.mem_of_mem_filter hr)).2.2

/-- C6: for every state monthly series produced by the pipeline from
rows with non-negative age fields, each `child_share` is either
undefined or lies in `[0, 1]`; it is undefined exactly when the month
total is zero — never infinite, negative, above 1, or an error. -/
theorem child_share_in_unit_interval (f : String) (raw : List RawRow)
    (hnn : ∀ r ∈ raw, 0 ≤ r.age_0_5.getD 0 ∧ 0 ≤ r.age_5_17.getD 0 ∧
      0 ≤ r.age_18_greater.getD 0) :
    ∀ e ∈ monthlyOf (cleanRows f raw),
      (e.total = 0 → (childEntry e).2 = none) ∧
      (e.total ≠ 0 → ∃ q, (childEntry e).2 = some q ∧ 0 ≤ q ∧ q ≤ 1) := by
  intro e he
  obtain ⟨d, hd, rfl⟩ := List.mem_map.mp he
  have htot := monthEntry_total_split (cleanRows f raw) d (cleanRows_total_eq f raw)
  have hages := monthEntry_age_nonneg (cleanRows f raw) d
    (cleanRows_ages_nonneg f raw hnn)
  constructor
  · intro h0
    simp [childEntry, h0]
  · intro hne
    have h0le : 0 ≤ (monthEntryAt (cleanRows f raw) d).total := by
      rw [htot]
      exact add_nonneg (add_nonneg hages.1 hages.2.1) hages.2.2
    have hpos : 0 < (monthEntryAt (cleanRows f raw) d).total :=
      lt_of_le_of_ne h0le (Ne.symm hne)
    refine ⟨((monthEntryAt (cleanRows f raw) d).age_0_5 +
        (monthEntryAt (cleanRows f raw) d).age_5_17) /
        (monthEntryAt (cleanRows f raw) d).total, ?_, ?_, ?_⟩
    · simp [childEntry, hne]
    · exact div_nonneg (add_nonneg hages.1 hages.2.1) (le_of_lt hpos)
    · rw [div_le_one hpos, htot]
      linarith [hages.2.2]

/-- Two raw rows for the C6 witness: one month with age data, one with
none. -/
def rawW6 : List RawRow :=
  [⟨"s", some 5, some "D", some "P", some 1, some 2, some 3⟩,
   ⟨"s", some 6, some "D", some "P", none, none, none⟩]

/-- The first monthly entry of the C6 witness. -/
def eW6a : MonthEntry := ⟨5, 1, 2, 3, 6, 6⟩

/-- The second monthly entry of the C6 witness (zero total). -/
def eW6b : MonthEntry := ⟨6, 0, 0, 0, 0, 7⟩

/-- C6 witness: on the concrete two-month series the zero-total month
has an undefined share and the other month's share is 1/2 ∈ [0, 1]. -/
theorem child_share_in_unit_interval_witness :
    (∀ r ∈ rawW6, 0 ≤ r.age_0_5.getD 0 ∧ 0 ≤ r.age_5_17.getD 0 ∧
      0 ≤ r.age_18_greater.getD 0) ∧
      eW6a ∈ monthlyOf (cleanRows "s" rawW6) ∧
      eW6b ∈ monthlyOf (cleanRows "s" rawW6) ∧
      eW6b.total = 0 ∧ (childEntry eW6b).2 = none ∧
      eW6a.total ≠ 0 ∧ (childEntry eW6a).2 = some (1 / 2) ∧
      (0 : ℚ) ≤ 1 / 2 ∧ (1 : ℚ) / 2 ≤ 1 := by
  have hnn : ∀ r ∈ rawW6, 0 ≤ r.age_0_5.getD 0 ∧ 0 ≤ r.age_5_17.getD 0 ∧
      0 ≤ r.age_18_greater.getD 0 := by
    intro r hr
    simp [rawW6] at hr
    rcases hr with rfl | rfl <;> refine ⟨?_, ?_, ?_⟩ <;> norm_num
  have hmatch : pyLower (pyStrip "s") = pyLower "s" := by decide
  have hsd : pyStrip "D" = "D" := by decide
  have hsp : pyStrip "P" = "P" := by decide
  have hclean : cleanRows "s" rawW6 =
      [⟨5, "D", "P", some 1, some 2, some 3, 6⟩,
       ⟨6, "D", "P", none, none, none, 0⟩] := by
    simp [cleanRows, rawW6, cleanRow, hmatch, hsd, hsp]
    norm_num
  have hdates : datesOf [(⟨5, "D", "P", some 1, some 2, some 3, 6⟩ : Row),
      ⟨6, "D", "P", none, none, none, 0⟩] = [5, 6] := by
    unfold datesOf
    exact sort_finset_eq _ [5, 6] (by decide) (by decide) (by decide)
  have hmon : monthlyOf (cleanRows "s" rawW6) = [eW6a, eW6b] := by
    rw [hclean]
    unfold monthlyOf
    rw [hdates]
    simp [monthEntryAt, rowsAt, monthOfYear, eW6a, eW6b]
  have hmemA : eW6a ∈ monthlyOf (cleanRows "s" rawW6) := by
    rw [hmon]; exact List.mem_cons_self _ _
  have hmemB : eW6b ∈ monthlyOf (cleanRows "s" rawW6) := by
    rw [hmon]; exact List.mem_cons_of_mem _ (List.mem_cons_self _ _)
  have hb0 : eW6b.total = 0 := rfl
  have hbnone : (childEntry eW6b).2 = none :=
    (child_share_in_unit_interval "s" rawW6 hnn eW6b hmemB).1 hb0
  have hane : eW6a.total ≠ 0 := by norm_num [eW6a]
  have heval : (childEntry eW6a).2 = some (1 / 2) := by
    simp [childEntry, eW6a]
    norm_num
  obtain ⟨q, hq, hq0, hq1⟩ :=
    (child_share_in_unit_interval "s" rawW6 hnn eW6a hmemA).2 hane
  have hqv : q = 1 / 2 := by
    rw [heval] at hq
    exact (Option.some.inj hq).symm
  exact ⟨hnn, hmemA, hmemB, hb0, hbnone, hane, heval, hqv ▸ hq0, hqv ▸ hq1⟩

/-! ### Claim C3: the seasonality index as a ratio-to-mean index -/

theorem list_sum_map_add {α : Type} (l : List α) (f g : α → ℚ) :
    (l.map (fun x => f x + g x)).sum = (l.map f).sum + (l.map g).sum := by
  induction l with
  | nil => simp
  | cons x t ih =>
    simp only [List.map_cons, List.sum_cons, ih]
    ring

theorem sum_if_single {M : List ℕ} (hnd : M.Nodup) {x : ℕ} (hx : x ∈ M) (v : ℚ) :
    (M.map (fun mo => if x = mo then v else 0)).sum = v := by
  induction M with
  | nil => cases hx
  | cons a t ih =>
    rcases List.nodup_cons.mp hnd with ⟨hat, hndt⟩
    rcases List.mem_cons.mp hx with rfl | hxt
    · simp only [List.map_cons, List.sum_cons, if_pos rfl]
      have hzero : ∀ mo ∈ t, (if x = mo then v else 0) = 0 := by
        intro mo hmo
        rw [if_neg]
        rintro rfl
        exact hat hmo
      rw [List.map_congr_left hzero]
      simp
    · have hne : x ≠ a := by
        rintro rfl
        exact hat hxt
      simp only [List.map_cons, List.sum_cons, if_neg hne]
      rw [ih hndt hxt]
      ring

/-- Summing group sums over any duplicate-free list of keys covering
every row's month gives the total sum. -/
theorem sum_groups (m : List MonthEntry) (g : MonthEntry → ℚ) (M : List ℕ)
    (hnd : M.Nodup) (hmem : ∀ e ∈ m, e.month ∈ M) :
    (M.map (fun mo => ((m.filter (fun e => e.month = mo)).map g).sum)).sum =
      (m.map g).sum := by
  induction m with
  | nil => simp
  | cons e t ih =>
    have hmem2 : ∀ x ∈ t, x.month ∈ M := fun x hx =>
      hmem x (List.mem_cons_of_mem _ hx)
    have he : e.month ∈ M := hmem e (List.mem_cons_self _ _)
    have hstep : ∀ mo ∈ M,
        (((e :: t).filter (fun x => x.month = mo)).map g).sum =
          (if e.month = mo then g e else 0) +
            ((t.filter (fun x => x.month = mo)).map g).sum := by
      intro mo _
      by_cases h : e.month = mo <;> simp [List.filter_cons, h]
    rw [List.map_congr_left hstep, list_sum_map_add, sum_if_single hnd he,
      ih hmem2]
    simp

theorem list_sum_ones (l : List MonthEntry) :
    (l.map (fun _ => (1 : ℚ))).sum = (l.length : ℚ) := by
  induction l with
  | nil => simp
  | cons x t ih =>
    simp only [List.map_cons, List.sum_cons, ih, List.length_cons]
    push_cast
    ring

/-- C3 (amended): whenever the overall mean of the state monthly totals
is nonzero and every observed month-of-year occurs equally often — in
particular when all 12 are observed the same positive number of times —
the seasonality index values produced by `_seasonality_index` have
arithmetic mean exactly 1. -/
theorem seasonality_mean_one_of_balanced (m : List MonthEntry) (c : ℕ)
    (hc : 0 < c)
    (hbal : ∀ mo ∈ monthsOf m, (m.filter (fun e => e.month = mo)).length = c)
    (hne : overall_avg m ≠ 0) :
    meanQ ((seasonality_index m).map Prod.snd) = 1 := by
  have hmne : m ≠ [] := by
    rintro rfl
    exact hne (by simp [overall_avg])
  have hlen0 : m.length ≠ 0 := by
    simpa [List.length_eq_zero] using hmne
  have hnd : (monthsOf m).Nodup := Finset.sort_nodup _ _
  have hmemM : ∀ e ∈ m, e.month ∈ monthsOf m := by
    intro e he
    unfold monthsOf
    rw [Finset.mem_sort]
    exact List.mem_toFinset.mpr (List.mem_map_of_mem _ he)
  have hS := sum_groups m MonthEntry.total (monthsOf m) hnd hmemM
  have hN := sum_groups m (fun _ => (1 : ℚ)) (monthsOf m) hnd hmemM
  rw [list_sum_ones] at hN
  have hNc : ((monthsOf m).length : ℚ) * (c : ℚ) = (m.length : ℚ) := by
    rw [← hN]
    have hcongr : ∀ mo ∈ monthsOf m,
        ((m.filter (fun e => e.month = mo)).map (fun _ => (1 : ℚ))).sum =
          (c : ℚ) := by
      intro mo hmo
      rw [list_sum_ones, hbal mo hmo]
    have hconst : ((monthsOf m).map (fun _ => (c : ℚ))).sum =
        ((monthsOf m).length : ℚ) * (c : ℚ) := by
      simp [List.map_const', List.sum_replicate, nsmul_eq_mul]
    rw [List.map_congr_left hcongr, hconst]
  have hmu : overall_avg m = (m.map MonthEntry.total).sum / (m.length : ℚ) := by
    unfold overall_avg meanQ
    rw [if_neg hlen0, List.length_map]
  have hSne : (m.map MonthEntry.total).sum ≠ 0 := by
    intro h
    exact hne (by rw [hmu, h, zero_div])
  have hidx : (seasonality_index m).map Prod.snd =
      (monthsOf m).map (fun mo => meanQ (monthTotals m mo) / overall_avg m) := by
    unfold seasonality_index
    rw [List.map_map]
    apply List.map_congr_left
    intro mo _
    simp [hne]
  have hterm : ∀ mo ∈ monthsOf m,
      meanQ (monthTotals m mo) / overall_avg m =
        ((m.filter (fun e => e.month = mo)).map MonthEntry.total).sum *
          ((c : ℚ) * overall_avg m)⁻¹ := by
    intro mo hmo
    unfold meanQ monthTotals
    rw [List.length_map, hbal mo hmo, div_div, div_eq_mul_inv]
  have hc0 : (c : ℚ) ≠ 0 := Nat.cast_ne_zero.mpr hc.ne'
  have hNQ : ((m.length : ℚ)) ≠ 0 := Nat.cast_ne_zero.mpr hlen0
  have hL0 : ((monthsOf m).length : ℚ) ≠ 0 := by
    intro h
    rw [h, zero_mul] at hNc
    exact hNQ hNc.symm
  unfold meanQ
  rw [hidx, List.map_congr_left hterm, List.sum_map_mul_right, hS,
    List.length_map, hmu]
  field_simp
  rw [← hNc]
  ring

/-- The C3 counterexample series: all 12 months-of-year observed, but
January twice (totals 0) and every other month once (totals 12). -/
def cexMonthly : List MonthEntry :=
  [⟨0, 0, 0, 0, 0, 1⟩, ⟨1, 0, 0, 0, 12, 2⟩, ⟨2, 0, 0, 0, 12, 3⟩,
   ⟨3, 0, 0, 0, 12, 4⟩, ⟨4, 0, 0, 0, 12, 5⟩, ⟨5, 0, 0, 0, 12, 6⟩,
   ⟨6, 0, 0, 0, 12, 7⟩, ⟨7, 0, 0, 0, 12, 8⟩, ⟨8, 0, 0, 0, 12, 9⟩,
   ⟨9, 0, 0, 0, 12, 10⟩, ⟨10, 0, 0, 0, 12, 11⟩, ⟨11, 0, 0, 0, 12, 12⟩,
   ⟨12, 0, 0, 0, 0, 1⟩]

/-- C3 (counterexample to the claim as stated): a 13-month series in
which all 12 months-of-year are observed and the overall mean is
nonzero, yet the 12 seasonality index values average 13/12, not 1 —
months-of-year observed more often than others skew the index mean. -/
theorem seasonality_mean_one_counterexample :
    (monthsOf cexMonthly).length = 12 ∧
      overall_avg cexMonthly ≠ 0 ∧
      meanQ ((seasonality_index cexMonthly).map Prod.snd) ≠ 1 := by
  have hM : monthsOf cexMonthly = [1, 2, 3, 4, 5, 6, 7, 8, 9, 10, 11, 12] := by
    unfold monthsOf
    exact sort_finset_eq _ [1, 2, 3, 4, 5, 6, 7, 8, 9, 10, 11, 12]
      (by decide) (by decide) (by decide)
  refine ⟨by rw [hM]; rfl, ?_, ?_⟩
  · norm_num [overall_avg, meanQ, cexMonthly]
  · simp only [seasonality_index, hM]
    norm_num [overall_avg, meanQ, monthTotals, cexMonthly]

/-- The C3 witness series: each of the 12 months-of-year observed
exactly once with total 7. -/
def balancedMonthly : List MonthEntry :=
  [⟨0, 0, 0, 0, 7, 1⟩, ⟨1, 0, 0, 0, 7, 2⟩, ⟨2, 0, 0, 0, 7, 3⟩,
   ⟨3, 0, 0, 0, 7, 4⟩, ⟨4, 0, 0, 0, 7, 5⟩, ⟨5, 0, 0, 0, 7, 6⟩,
   ⟨6, 0, 0, 0, 7, 7⟩, ⟨7, 0, 0, 0, 7, 8⟩, ⟨8, 0, 0, 0, 7, 9⟩,
   ⟨9, 0, 0, 0, 7, 10⟩, ⟨10, 0, 0, 0, 7, 11⟩, ⟨11, 0, 0, 0, 7, 12⟩]

/-- C3 witness: on a series with all 12 months observed exactly once
and nonzero mean, the index values average exactly 1. -/
theorem seasonality_mean_one_witness :
    (0 : ℕ) < 1 ∧
      (∀ mo ∈ monthsOf balancedMonthly,
        (balancedMonthly.filter (fun e => e.month = mo)).length = 1) ∧
      overall_avg balancedMonthly ≠ 0 ∧
      meanQ ((seasonality_index balancedMonthly).map Prod.snd) = 1 := by
  have hM : monthsOf balancedMonthly = [1, 2, 3, 4, 5, 6, 7, 8, 9, 10, 11, 12] := by
    unfold monthsOf
    exact sort_finset_eq _ [1, 2, 3, 4, 5, 6, 7, 8, 9, 10, 11, 12]
      (by decide) (by decide) (by decide)
  have hbal : ∀ mo ∈ monthsOf balancedMonthly,
      (balancedMonthly.filter (fun e => e.month = mo)).length = 1 := by
    rw [hM]
    decide
  have hne : overall_avg balancedMonthly ≠ 0 := by
    norm_num [overall_avg, meanQ, balancedMonthly]
  exact ⟨Nat.one_pos, hbal, hne,
    seasonality_mean_one_of_balanced balancedMonthly 1 Nat.one_pos hbal hne⟩

end UIDAI
